import Mathlib

/-
Verification of the BAssist client-side conversational session controller
and chat-history store, as a shallow embedding.

Sources embedded:
- the chat page submit/cancel handler (`handleSend` / `handleCancel` in
  `src/app/chat/page.tsx`), modelled as a pure function from the pre-submit
  state and the outcome of the remote call to the post-submit state;
- the summarizer (study-buddy) page submit handler (`handleSend` in
  `src/app/study-buddy/page.tsx`), including the form-data it builds;
- the history store (`ChatHistoryContext`): `addHistory` and the
  localStorage hydration logic.

JavaScript strings are modelled as Lean `String` (a list of characters);
`s.substring(0, n)`, `s.length` and `s.trim()` are modelled character-wise
by `jsSubstring0`, `jsLength` and `jsTrim`. `Date.now()` is an explicit
`Nat` parameter threaded to the operations that read the clock.
-/

namespace BAssist

/-- Message role, from the `Message` interface shared by the feature pages. -/
inductive Role
  | user
  | assistant
deriving DecidableEq, Repr

/-- One conversation turn: `interface Message { role; content }`. -/
structure Message where
  role : Role
  content : String
deriving DecidableEq, Repr

/-- Model of JavaScript `s.trim()`: drop whitespace from both ends. -/
def jsTrim (s : String) : String :=
  String.mk (((s.data.dropWhile Char.isWhitespace).reverse.dropWhile
    Char.isWhitespace).reverse)

/-- Model of JavaScript `s.substring(0, n)`: the first `n` characters. -/
def jsSubstring0 (s : String) (n : Nat) : String :=
  String.mk (s.data.take n)

/-- Model of JavaScript `s.length` (character count). -/
def jsLength (s : String) : Nat :=
  s.data.length

/-- A persisted session record: `interface ChatHistory` in the history
store (`id`, `feature`, `title`, `timestamp`, `preview`, `messages`). -/
structure ChatHistory where
  id : String
  feature : String
  title : String
  timestamp : Nat
  preview : String
  messages : List Message
deriving DecidableEq, Repr

/-- The history-store state: the mapping from feature identifier to that
feature's list of session records (`Record<string, ChatHistory[]>`);
a feature absent from the mapping reads as the empty list, matching the
`prev[feature] || []` accesses in the source. -/
def Store : Type :=
  String → List ChatHistory

/-- The initial store state `{}`. -/
def emptyStore : Store :=
  fun _ => []

/-- The session record built by `addHistory`: `id` is
`Date.now().toString()`, `title` is `firstUserMessage.substring(0, 30)`,
`preview` is `firstUserMessage.substring(0, 50)` plus `"..."` exactly when
the content is longer than 50 characters. -/
def mkHistory (feature : String) (messages : List Message) (now : Nat)
    (firstUserMessage : String) : ChatHistory :=
  { id := toString now
    feature := feature
    title := jsSubstring0 firstUserMessage 30
    timestamp := now
    preview := jsSubstring0 firstUserMessage 50
      ++ (if jsLength firstUserMessage > 50 then "..." else "")
    messages := messages }

/-- `addHistory(feature, messages)` from the history store. Returns early
when `messages` is empty or contains no USER turn; otherwise prepends the
new record to the feature's list and keeps the first 20
(`[newHistory, ...featureHistories].slice(0, 20)`). `now` models
`Date.now()`. -/
def addHistory (histories : Store) (feature : String) (messages : List Message)
    (now : Nat) : Store :=
  if messages.length = 0 then histories
  else
    match messages.filter (fun m => decide (m.role = Role.user)) with
    | [] => histories
    | firstUser :: _ =>
      fun f =>
        if f = feature then
          (mkHistory feature messages now firstUser.content :: histories f).take 20
        else histories f

/-- Hydration of the history store from persisted storage: the provider
starts from `{}`; if `localStorage.getItem("chatHistories")` returns a
blob it tries `JSON.parse` and on failure logs and keeps the empty state.
`parse` abstracts `JSON.parse`, returning `none` when parsing throws.
The function is total: hydration never raises to the caller. -/
def hydrate (stored : Option String) (parse : String → Option Store) : Store :=
  match stored with
  | none => emptyStore
  | some s =>
    match parse s with
    | some parsed => parsed
    | none => emptyStore

/-- Outcome of the remote call as seen by the submit handler's
`try`/`catch`: a parsed success payload; an HTTP/`success:false` failure
carrying `data.detail || data.error` when that is a non-empty string; a
transport error other than abort, carrying `err.message` when non-empty;
or an abort (`err.name === "AbortError"`). -/
inductive RemoteOutcome
  | ok (response : String)
  | httpFail (detail : Option String)
  | transportErr (message : Option String)
  | aborted
deriving DecidableEq, Repr

/-- The terminal outcome of one submit call. -/
inductive Outcome
  | validation
  | success
  | canceled
  | remoteError
deriving DecidableEq, Repr

/-- The observable result of one submit call: the live transcript after
the handler returns, the surfaced error message (`""` when none), the list
of `(feature, transcript)` arguments passed to the history store's
`addHistory` during the call, and the terminal outcome. -/
structure SendResult where
  messages : List Message
  error : String
  historyAdds : List (String × List Message)
  outcome : Outcome
deriving DecidableEq, Repr

/-- Content of the optimistic USER turn on the chat page:
`files.length > 0 ? `[N tệp đính kèm] input` : input`. -/
def chatUserContent (input : String) (filesCount : Nat) : String :=
  if filesCount > 0 then
    "[" ++ toString filesCount ++ " tệp đính kèm] " ++ input
  else input

/-- `handleSend` of the chat page (`src/app/chat/page.tsx`), as a pure
function of the pre-submit transcript, the input text, the attached-file
count and the remote call's outcome. Mirrors the source: validation error
when the trimmed input is empty and no file is attached; optimistic USER
turn appended; on success an ASSISTANT turn from `data.response` is
appended and `addHistory("chat", newMessages)` is called; on abort the
transcript is reset to the pre-submit `messages` and the cancel message is
surfaced; on failure the transcript keeps the USER turn and the derived
error message is surfaced. -/
def chatHandleSend (messages : List Message) (input : String) (filesCount : Nat)
    (remote : RemoteOutcome) : SendResult :=
  if jsTrim input = "" ∧ filesCount = 0 then
    { messages := messages
      error := "Vui lòng nhập tin nhắn hoặc tải lên tệp"
      historyAdds := []
      outcome := Outcome.validation }
  else
    let userMessage : Message := { role := Role.user, content := chatUserContent input filesCount }
    let updatedMessages := messages ++ [userMessage]
    match remote with
    | RemoteOutcome.ok response =>
      let newMessages := updatedMessages ++ [{ role := Role.assistant, content := response }]
      { messages := newMessages
        error := ""
        historyAdds := [("chat", newMessages)]
        outcome := Outcome.success }
    | RemoteOutcome.httpFail detail =>
      { messages := updatedMessages
        error := detail.getD "Không thể gửi tin nhắn"
        historyAdds := []
        outcome := Outcome.remoteError }
    | RemoteOutcome.transportErr message =>
      { messages := updatedMessages
        error := message.getD "Có lỗi xảy ra. Vui lòng thử lại."
        historyAdds := []
        outcome := Outcome.remoteError }
    | RemoteOutcome.aborted =>
      { messages := messages
        error := "Đã hủy yêu cầu"
        historyAdds := []
        outcome := Outcome.canceled }

/-- The form data built by the study-buddy submit handler: when files are
attached only the files are appended (`formData.append("files", file)` per
file, no `"request"` part, hence no text); otherwise, when the trimmed
input is non-empty, a `"request"` part carrying the text is appended;
otherwise the form stays empty. -/
structure StudyRequest where
  files : List String
  text : Option String
deriving DecidableEq, Repr

/-- Content of the optimistic USER turn on the study-buddy page:
`files.length > 0 ? `[N tệp đính kèm]` : input` — the typed text is not
part of the content when files are attached. -/
def studyUserContent (input : String) (files : List String) : String :=
  if files.length > 0 then
    "[" ++ toString files.length ++ " tệp đính kèm]"
  else input

/-- The outbound payload built by study-buddy's `handleSend`. -/
def studyRequest (input : String) (files : List String) : StudyRequest :=
  if files.length > 0 then { files := files, text := none }
  else if jsTrim input ≠ "" then { files := [], text := some input }
  else { files := [], text := none }

/-- Result of one study-buddy submit: like `SendResult`, plus the form
data that was sent (`none` when validation failed and no request left the
page). -/
structure StudySendResult where
  messages : List Message
  error : String
  historyAdds : List (String × List Message)
  outcome : Outcome
  request : Option StudyRequest
deriving DecidableEq, Repr

/-- `handleSend` of the study-buddy page (`src/app/study-buddy/page.tsx`).
Mirrors the source: validation error when the trimmed input is empty and
no file is attached; optimistic USER turn (the attachment-count marker
when files are present, else the text); form data per `studyRequest`; on
success an ASSISTANT turn from `data.summary` is appended and
`addHistory("study-buddy", newMessages)` is called; on abort the
transcript is reset to the pre-submit snapshot; any non-abort failure
surfaces the fixed generic message. -/
def studyHandleSend (messages : List Message) (input : String) (files : List String)
    (remote : RemoteOutcome) : StudySendResult :=
  if jsTrim input = "" ∧ files.length = 0 then
    { messages := messages
      error := "Vui lòng nhập văn bản hoặc tải lên tệp"
      historyAdds := []
      outcome := Outcome.validation
      request := none }
  else
    let userMessage : Message := { role := Role.user, content := studyUserContent input files }
    let updatedMessages := messages ++ [userMessage]
    let req := studyRequest input files
    match remote with
    | RemoteOutcome.ok summary =>
      let newMessages := updatedMessages ++ [{ role := Role.assistant, content := summary }]
      { messages := newMessages
        error := ""
        historyAdds := [("study-buddy", newMessages)]
        outcome := Outcome.success
        request := some req }
    | RemoteOutcome.httpFail _ =>
      { messages := updatedMessages
        error := "Có lỗi xảy ra. Vui lòng thử lại."
        historyAdds := []
        outcome := Outcome.remoteError
        request := some req }
    | RemoteOutcome.transportErr _ =>
      { messages := updatedMessages
        error := "Có lỗi xảy ra. Vui lòng thử lại."
        historyAdds := []
        outcome := Outcome.remoteError
        request := some req }
    | RemoteOutcome.aborted =>
      { messages := messages
        error := "Đã hủy yêu cầu"
        historyAdds := []
        outcome := Outcome.canceled
        request := some req }

/-- One invocation of the history store's add-session operation:
the feature key, the transcript handed over, and the `Date.now()` value
observed during the call. -/
structure AddOp where
  feature : String
  messages : List Message
  now : Nat
deriving DecidableEq, Repr

/-- Replay a sequence of add-session operations against a store state. -/
def runAdds (st : Store) : List AddOp → Store
  | [] => st
  | op :: rest => runAdds (addHistory st op.feature op.messages op.now) rest

/-- The clock values observed by a sequence of operations are
nondecreasing and bounded below by `c` (the real `Date.now()` is
monotone across consecutive calls). -/
def ClockMono : Nat → List AddOp → Prop
  | _, [] => True
  | c, op :: rest => c ≤ op.now ∧ ClockMono op.now rest

/-- A session list is in newest-first order: timestamps are nonincreasing
along the list. -/
def NewestFirst (l : List ChatHistory) : Prop :=
  l.Pairwise (fun a b => b.timestamp ≤ a.timestamp)

/-- Every record in the list was created no later than clock value `c`. -/
def BoundedBy (c : Nat) (l : List ChatHistory) : Prop :=
  ∀ r ∈ l, r.timestamp ≤ c

/-- A sample USER turn used to instantiate universally quantified
theorems at a concrete input. -/
def sampleUserMsg : Message :=
  { role := Role.user, content := "hello" }

/-- A sample two-operation history workload. -/
def sampleOps : List AddOp :=
  [{ feature := "chat", messages := [sampleUserMsg], now := 0 },
   { feature := "chat", messages := [sampleUserMsg], now := 1 }]

/-- A sample store whose `"chat"` feature already holds 20 records. -/
def sampleStore20 : Store :=
  fun f =>
    if f = "chat" then List.replicate 20 (mkHistory "chat" [sampleUserMsg] 0 "hello")
    else []

/-- The store produced by two add-session operations that observe the
same `Date.now()` millisecond (value 5) on two different features. -/
def collideStore : Store :=
  addHistory
    (addHistory emptyStore "chat" [{ role := Role.user, content := "first" }] 5)
    "study-buddy" [{ role := Role.user, content := "second" }] 5

/-- A sample `JSON.parse` model that succeeds only on the blob `"good"`. -/
def sampleParse : String → Option Store :=
  fun x => if x = "good" then some emptyStore else none

/-- C1: for every prior transcript and non-empty user input, a submit whose
remote call returns a successful response yields the prior transcript with
exactly one new USER turn (the submitted input) followed by exactly one new
ASSISTANT turn (the response payload), in that order, and that updated
transcript is the argument handed to the history store's add-session
operation. -/
theorem chat_submit_success_appends (messages : List Message) (input response : String)
    (h : jsTrim input ≠ "") :
    (chatHandleSend messages input 0 (RemoteOutcome.ok response)).messages
        = messages ++ [{ role := Role.user, content := input },
            { role := Role.assistant, content := response }] ∧
      (chatHandleSend messages input 0 (RemoteOutcome.ok response)).historyAdds
        = [("chat", messages ++ [{ role := Role.user, content := input },
            { role := Role.assistant, content := response }])] ∧
      (chatHandleSend messages input 0 (RemoteOutcome.ok response)).outcome
        = Outcome.success := by
  refine ⟨?_, ?_, ?_⟩ <;> simp [chatHandleSend, h, chatUserContent]

/-- Witness for C1 at a concrete input. -/
theorem chat_submit_success_appends_witness :
    jsTrim "hi" ≠ "" ∧
      ((chatHandleSend [] "hi" 0 (RemoteOutcome.ok "ok")).messages
          = [{ role := Role.user, content := "hi" },
             { role := Role.assistant, content := "ok" }] ∧
        (chatHandleSend [] "hi" 0 (RemoteOutcome.ok "ok")).historyAdds
          = [("chat", [{ role := Role.user, content := "hi" },
              { role := Role.assistant, content := "ok" }])] ∧
        (chatHandleSend [] "hi" 0 (RemoteOutcome.ok "ok")).outcome = Outcome.success) :=
  ⟨by decide, chat_submit_success_appends [] "hi" "ok" (by decide)⟩

/-- C2: cancelling a submit before the remote response resolves leaves the
live transcript identical to the pre-submit transcript (the optimistic
USER turn is removed, no partial turn remains) and surfaces a canceled
outcome distinct from the error outcome. -/
theorem chat_cancel_rolls_back (messages : List Message) (input : String)
    (filesCount : Nat) (h : ¬(jsTrim input = "" ∧ filesCount = 0)) :
    (chatHandleSend messages input filesCount RemoteOutcome.aborted).messages
        = messages ∧
      (chatHandleSend messages input filesCount RemoteOutcome.aborted).outcome
        = Outcome.canceled ∧
      (chatHandleSend messages input filesCount RemoteOutcome.aborted).outcome
        ≠ Outcome.remoteError := by
  refine ⟨?_, ?_, ?_⟩ <;> simp [chatHandleSend, h]

/-- Witness for C2 at a concrete input. -/
theorem chat_cancel_rolls_back_witness :
    ¬(jsTrim "hi" = "" ∧ (0 : Nat) = 0) ∧
      ((chatHandleSend [sampleUserMsg] "hi" 0 RemoteOutcome.aborted).messages
          = [sampleUserMsg] ∧
        (chatHandleSend [sampleUserMsg] "hi" 0 RemoteOutcome.aborted).outcome
          = Outcome.canceled ∧
        (chatHandleSend [sampleUserMsg] "hi" 0 RemoteOutcome.aborted).outcome
          ≠ Outcome.remoteError) :=
  ⟨by decide, chat_cancel_rolls_back [sampleUserMsg] "hi" 0 (by decide)⟩

/-- C3: a failed remote call — HTTP non-2xx or a success:false payload
(`httpFail`), or a transport error other than abort (`transportErr`) —
leaves the appended USER turn in place with no new ASSISTANT turn (no
rollback), and surfaces the error detail from the response body when
available, else the generic message. -/
theorem chat_failure_keeps_user_turn (messages : List Message) (input : String)
    (filesCount : Nat) (detail message : Option String)
    (h : ¬(jsTrim input = "" ∧ filesCount = 0)) :
    ((chatHandleSend messages input filesCount (RemoteOutcome.httpFail detail)).messages
        = messages ++ [{ role := Role.user, content := chatUserContent input filesCount }] ∧
      (chatHandleSend messages input filesCount (RemoteOutcome.httpFail detail)).error
        = detail.getD "Không thể gửi tin nhắn" ∧
      (chatHandleSend messages input filesCount (RemoteOutcome.httpFail detail)).outcome
        = Outcome.remoteError) ∧
    ((chatHandleSend messages input filesCount (RemoteOutcome.transportErr message)).messages
        = messages ++ [{ role := Role.user, content := chatUserContent input filesCount }] ∧
      (chatHandleSend messages input filesCount (RemoteOutcome.transportErr message)).error
        = message.getD "Có lỗi xảy ra. Vui lòng thử lại." ∧
      (chatHandleSend messages input filesCount (RemoteOutcome.transportErr message)).outcome
        = Outcome.remoteError) := by
  refine ⟨⟨?_, ?_, ?_⟩, ⟨?_, ?_, ?_⟩⟩ <;> simp [chatHandleSend, h]

/-- Witness for C3 at a concrete input. -/
theorem chat_failure_keeps_user_turn_witness :
    ¬(jsTrim "hi" = "" ∧ (0 : Nat) = 0) ∧
      (((chatHandleSend [] "hi" 0 (RemoteOutcome.httpFail (some "boom"))).messages
          = [{ role := Role.user, content := chatUserContent "hi" 0 }] ∧
        (chatHandleSend [] "hi" 0 (RemoteOutcome.httpFail (some "boom"))).error
          = (some "boom").getD "Không thể gửi tin nhắn" ∧
        (chatHandleSend [] "hi" 0 (RemoteOutcome.httpFail (some "boom"))).outcome
          = Outcome.remoteError) ∧
      ((chatHandleSend [] "hi" 0 (RemoteOutcome.transportErr none)).messages
          = [{ role := Role.user, content := chatUserContent "hi" 0 }] ∧
        (chatHandleSend [] "hi" 0 (RemoteOutcome.transportErr none)).error
          = (none : Option String).getD "Có lỗi xảy ra. Vui lòng thử lại." ∧
        (chatHandleSend [] "hi" 0 (RemoteOutcome.transportErr none)).outcome
          = Outcome.remoteError)) :=
  ⟨by decide, chat_failure_keeps_user_turn [] "hi" 0 (some "boom") none (by decide)⟩

/-- C5 (code bug): two add-session operations that observe the same
`Date.now()` millisecond create two distinct session records carrying the
same `id` value `"5"` — the store's `id` values are not unique across its
lifetime, contradicting the uniqueness the store's own delete-by-id and
find-by-id operations presuppose. -/
theorem addHistory_id_collision :
    (collideStore "chat").map (fun r => r.id) = ["5"] ∧
      (collideStore "study-buddy").map (fun r => r.id) = ["5"] ∧
      collideStore "chat" ≠ collideStore "study-buddy" := by
  decide

/-- C7: the add-session operation is a no-op on a transcript with zero
USER turns — the whole store mapping, and in particular the feature's
session list, are unchanged. -/
theorem addHistory_no_user_noop (histories : Store) (feature : String)
    (messages : List Message) (now : Nat)
    (h : messages.filter (fun m => decide (m.role = Role.user)) = []) :
    addHistory histories feature messages now = histories ∧
      (addHistory histories feature messages now) feature = histories feature := by
  have h1 : addHistory histories feature messages now = histories := by
    unfold addHistory
    split
    · rfl
    · rw [h]
  exact ⟨h1, by rw [h1]⟩

/-- Witness for C7 at a concrete input: an assistant-only transcript. -/
theorem addHistory_no_user_noop_witness :
    ([({ role := Role.assistant, content := "x" } : Message)].filter
        (fun m => decide (m.role = Role.user)) = []) ∧
      (addHistory emptyStore "chat"
          [{ role := Role.assistant, content := "x" }] 3 = emptyStore ∧
        (addHistory emptyStore "chat"
            [{ role := Role.assistant, content := "x" }] 3) "chat"
          = emptyStore "chat") :=
  ⟨by decide,
    addHistory_no_user_noop emptyStore "chat"
      [{ role := Role.assistant, content := "x" }] 3 (by decide)⟩

/-- C8: hydration never raises — it is a total function that yields the
empty mapping when the persisted blob is absent or fails to parse, and the
parsed state when parsing succeeds. -/
theorem hydrate_never_raises (parse : String → Option Store) (s t : String)
    (st : Store) (hbad : parse s = none) (hgood : parse t = some st) :
    hydrate none parse = emptyStore ∧
      hydrate (some s) parse = emptyStore ∧
      hydrate (some t) parse = st := by
  refine ⟨rfl, ?_, ?_⟩ <;> simp [hydrate, hbad, hgood]

/-- Witness for C8 at a concrete parse function and blobs. -/
theorem hydrate_never_raises_witness :
    sampleParse "corrupt" = none ∧ sampleParse "good" = some emptyStore ∧
      (hydrate none sampleParse = emptyStore ∧
        hydrate (some "corrupt") sampleParse = emptyStore ∧
        hydrate (some "good") sampleParse = emptyStore) :=
  ⟨rfl, rfl, hydrate_never_raises sampleParse "corrupt" "good" emptyStore rfl rfl⟩

/-- C9: per submit call, the number of add-session invocations is exactly
one when the remote call succeeds and exactly zero when the submit fails
validation, is canceled, or fails remotely. -/
theorem chat_history_mutation_count (messages : List Message) (input : String)
    (filesCount : Nat) (remote : RemoteOutcome) :
    (chatHandleSend messages input filesCount remote).historyAdds.length
      = if jsTrim input = "" ∧ filesCount = 0 then 0
        else
          match remote with
          | RemoteOutcome.ok _ => 1
          | _ => 0 := by
  by_cases h : jsTrim input = "" ∧ filesCount = 0 <;>
    cases remote <;> simp [chatHandleSend, h]

/-- C10: on the study-buddy page, whenever at least one file is attached
the typed text is discarded entirely — the appended USER turn's content is
exactly the attachment-count marker, and the outbound request carries only
the files and no text. -/
theorem study_files_discard_text (messages : List Message) (input response : String)
    (files : List String) (h : files ≠ []) :
    studyUserContent input files = "[" ++ toString files.length ++ " tệp đính kèm]" ∧
      studyRequest input files = { files := files, text := none } ∧
      (studyHandleSend messages input files (RemoteOutcome.ok response)).messages
        = messages
          ++ [{ role := Role.user,
                content := "[" ++ toString files.length ++ " tệp đính kèm]" },
              { role := Role.assistant, content := response }] ∧
      (studyHandleSend messages input files (RemoteOutcome.ok response)).request
        = some { files := files, text := none } := by
  have hp : 0 < files.length := List.length_pos.mpr h
  have hc : ¬(jsTrim input = "" ∧ files.length = 0) :=
    fun hx => Nat.pos_iff_ne_zero.mp hp hx.2
  refine ⟨?_, ?_, ?_, ?_⟩ <;>
    simp [studyHandleSend, studyUserContent, studyRequest, hc, hp, h]

/-- Witness for C10 at one attached file and non-empty typed text. -/
theorem study_files_discard_text_witness :
    (["notes.pdf"] : List String) ≠ [] ∧
      (studyUserContent "please summarize" ["notes.pdf"] = "[1 tệp đính kèm]" ∧
        studyRequest "please summarize" ["notes.pdf"]
          = { files := ["notes.pdf"], text := none } ∧
        (studyHandleSend [] "please summarize" ["notes.pdf"]
            (RemoteOutcome.ok "done")).messages
          = [{ role := Role.user, content := "[1 tệp đính kèm]" },
             { role := Role.assistant, content := "done" }] ∧
        (studyHandleSend [] "please summarize" ["notes.pdf"]
            (RemoteOutcome.ok "done")).request
          = some { files := ["notes.pdf"], text := none }) :=
  ⟨by decide, study_files_discard_text [] "please summarize" "done" ["notes.pdf"] (by decide)⟩

/-- Helper: `addHistory` is the identity on a transcript whose USER-turn
filter is empty. -/
theorem addHistory_of_filter_nil (histories : Store) (feature : String)
    (messages : List Message) (now : Nat)
    (h : messages.filter (fun m => decide (m.role = Role.user)) = []) :
    addHistory histories feature messages now = histories := by
  unfold addHistory
  split
  · rfl
  · rw [h]

/-- Helper: when the transcript has a first USER turn, `addHistory`
prepends the new record to the feature's list and truncates to 20. -/
theorem addHistory_of_filter_cons (histories : Store) (feature : String)
    (messages : List Message) (now : Nat) (fu : Message) (rest : List Message)
    (h : messages.filter (fun m => decide (m.role = Role.user)) = fu :: rest) :
    addHistory histories feature messages now
      = fun f =>
          if f = feature then
            (mkHistory feature messages now fu.content :: histories f).take 20
          else histories f := by
  cases messages with
  | nil => simp at h
  | cons a l =>
    unfold addHistory
    rw [if_neg (by simp), h]

/-- Helper: taking at most the string's own length is the identity. -/
theorem jsSubstring0_of_le (s : String) (n : Nat) (h : jsLength s ≤ n) :
    jsSubstring0 s n = s := by
  cases s with
  | mk data =>
    have h' : data.length ≤ n := h
    show String.mk (data.take n) = String.mk data
    rw [List.take_of_length_le h']

/-- Helper: appending the empty string is the identity. -/
theorem string_append_nil (s : String) : s ++ "" = s := by
  cases s with
  | mk data =>
    show String.mk (data ++ []) = String.mk data
    rw [List.append_nil]

/-- Helper: one `addHistory` step preserves the cap-20 / newest-first /
clock-bound invariant, moving the clock bound from `c` up to `now`. -/
theorem addHistory_preserves_inv (st : Store) (feature : String)
    (msgs : List Message) (now c : Nat) (hc : c ≤ now)
    (hinv : ∀ f, ((st f).length ≤ 20 ∧ NewestFirst (st f)) ∧ BoundedBy c (st f)) :
    ∀ f, (((addHistory st feature msgs now) f).length ≤ 20 ∧
        NewestFirst ((addHistory st feature msgs now) f)) ∧
      BoundedBy now ((addHistory st feature msgs now) f) := by
  intro f
  have relax : ∀ l : List ChatHistory,
      ((l.length ≤ 20 ∧ NewestFirst l) ∧ BoundedBy c l) →
      ((l.length ≤ 20 ∧ NewestFirst l) ∧ BoundedBy now l) :=
    fun l hl => ⟨hl.1, fun r hr => le_trans (hl.2 r hr) hc⟩
  cases hm : msgs.filter (fun m => decide (m.role = Role.user)) with
  | nil =>
    rw [addHistory_of_filter_nil st feature msgs now hm]
    exact relax _ (hinv f)
  | cons fu rest =>
    rw [addHistory_of_filter_cons st feature msgs now fu rest hm]
    by_cases hf : f = feature
    · subst hf
      have hff : f = f := rfl
      simp only [if_pos hff]
      refine ⟨⟨?_, ?_⟩, ?_⟩
      · exact List.length_take_le 20 _
      · refine List.Pairwise.sublist (List.take_sublist _ _) ?_
        refine List.pairwise_cons.mpr ⟨?_, (hinv f).1.2⟩
        intro b hb
        show b.timestamp ≤ now
        exact le_trans ((hinv f).2 b hb) hc
      · intro r hr
        have hmem : r ∈ mkHistory f msgs now fu.content :: st f :=
          (List.take_sublist _ _).subset hr
        rcases List.mem_cons.mp hmem with hr0 | hr1
        · rw [hr0]
          exact le_refl now
        · exact le_trans ((hinv f).2 r hr1) hc
    · simp only [if_neg hf]
      exact relax _ (hinv f)

/-- Helper: one `addHistory` step preserves the cap-20 bound alone, with
no assumption on the clock. -/
theorem addHistory_preserves_len (st : Store) (feature : String)
    (msgs : List Message) (now : Nat)
    (hinv : ∀ f, (st f).length ≤ 20) :
    ∀ f, ((addHistory st feature msgs now) f).length ≤ 20 := by
  intro f
  cases hm : msgs.filter (fun m => decide (m.role = Role.user)) with
  | nil =>
    rw [addHistory_of_filter_nil st feature msgs now hm]
    exact hinv f
  | cons fu rest =>
    rw [addHistory_of_filter_cons st feature msgs now fu rest hm]
    by_cases hf : f = feature
    · simp only [if_pos hf]
      exact List.length_take_le 20 _
    · simp only [if_neg hf]
      exact hinv f

/-- Helper: replaying any workload preserves the cap-20 bound. -/
theorem runAdds_preserves_len :
    ∀ (ops : List AddOp) (st : Store), (∀ f, (st f).length ≤ 20) →
      ∀ f, ((runAdds st ops) f).length ≤ 20
  | [], _, hinv => hinv
  | op :: rest, st, hinv =>
    runAdds_preserves_len rest (addHistory st op.feature op.messages op.now)
      (addHistory_preserves_len st op.feature op.messages op.now hinv)

/-- Helper: replaying a clock-monotone workload preserves the cap-20 and
newest-first invariants. -/
theorem runAdds_preserves_inv :
    ∀ (ops : List AddOp) (st : Store) (c : Nat), ClockMono c ops →
      (∀ f, ((st f).length ≤ 20 ∧ NewestFirst (st f)) ∧ BoundedBy c (st f)) →
      ∀ f, ((runAdds st ops) f).length ≤ 20 ∧ NewestFirst ((runAdds st ops) f)
  | [], _, _, _, hinv => fun f => (hinv f).1
  | op :: rest, st, c, hmono, hinv =>
    runAdds_preserves_inv rest (addHistory st op.feature op.messages op.now) op.now
      hmono.2 (addHistory_preserves_inv st op.feature op.messages op.now c hmono.1 hinv)

/-- C4: for every feature and every sequence of add-session operations
starting from the empty store, the feature's session list holds at most
20 records, and — under the monotone system clock — in newest-first
(nonincreasing-timestamp) order; and adding a session to a feature already
holding 20 records yields exactly the new record followed by all prior
records except the oldest (the last), so the length stays 20 and the
newly added record is first. -/
theorem addHistory_cap20_newest_first :
    (∀ ops : List AddOp, ∀ f, ((runAdds emptyStore ops) f).length ≤ 20) ∧
    (∀ ops : List AddOp, ClockMono 0 ops →
      ∀ f, NewestFirst ((runAdds emptyStore ops) f)) ∧
    (∀ (st : Store) (feature : String) (msgs : List Message) (now : Nat)
        (fu : Message) (rest : List Message),
      msgs.filter (fun m => decide (m.role = Role.user)) = fu :: rest →
      (st feature).length = 20 →
      (addHistory st feature msgs now) feature
          = mkHistory feature msgs now fu.content :: (st feature).dropLast ∧
        ((addHistory st feature msgs now) feature).length = 20) := by
  refine ⟨?_, ?_, ?_⟩
  · intro ops f
    exact runAdds_preserves_len ops emptyStore (fun g => by simp [emptyStore]) f
  · intro ops hmono f
    refine (runAdds_preserves_inv ops emptyStore 0 hmono (fun g => ?_) f).2
    exact ⟨⟨by simp [emptyStore], by simp [NewestFirst, emptyStore]⟩,
      by intro r hr; simp [emptyStore] at hr⟩
  · intro st feature msgs now fu rest hm hlen
    have heq := addHistory_of_filter_cons st feature msgs now fu rest hm
    have h19 : (st feature).dropLast = (st feature).take 19 := by
      rw [List.dropLast_eq_take, hlen]
    constructor
    · rw [heq]
      show (if feature = feature then
          List.take 20 (mkHistory feature msgs now fu.content :: st feature)
        else st feature)
        = mkHistory feature msgs now fu.content :: (st feature).dropLast
      rw [if_pos rfl, h19]
      have h20 : (20 : Nat) = 19 + 1 := rfl
      rw [h20, List.take_succ_cons]
    · rw [heq]
      show (if feature = feature then
          List.take 20 (mkHistory feature msgs now fu.content :: st feature)
        else st feature).length = 20
      rw [if_pos rfl, List.length_take, List.length_cons, hlen]
      decide

/-- Witness for C4: a two-operation workload, and an eviction out of a
store already holding 20 records for the `"chat"` feature. -/
theorem addHistory_cap20_newest_first_witness :
    ClockMono 0 sampleOps ∧
      (((runAdds emptyStore sampleOps) "chat").length ≤ 20 ∧
        NewestFirst ((runAdds emptyStore sampleOps) "chat")) ∧
      ([sampleUserMsg].filter (fun m => decide (m.role = Role.user))
          = [sampleUserMsg] ∧
        (sampleStore20 "chat").length = 20) ∧
      ((addHistory sampleStore20 "chat" [sampleUserMsg] 7) "chat"
          = mkHistory "chat" [sampleUserMsg] 7 sampleUserMsg.content
              :: (sampleStore20 "chat").dropLast ∧
        ((addHistory sampleStore20 "chat" [sampleUserMsg] 7) "chat").length = 20) := by
  have hmono : ClockMono 0 sampleOps := by simp [ClockMono, sampleOps]
  have hfil : [sampleUserMsg].filter (fun m => decide (m.role = Role.user))
      = [sampleUserMsg] := by decide
  have hlen : (sampleStore20 "chat").length = 20 := by decide
  exact ⟨hmono,
    ⟨addHistory_cap20_newest_first.1 sampleOps "chat",
      addHistory_cap20_newest_first.2.1 sampleOps hmono "chat"⟩,
    ⟨hfil, hlen⟩,
    addHistory_cap20_newest_first.2.2 sampleStore20 "chat" [sampleUserMsg] 7
      sampleUserMsg [] hfil hlen⟩

/-- C6: the record created from a transcript whose first USER turn has
content `s` carries `title` equal to the first 30 characters of `s` with
no ellipsis ever appended, and `preview` equal to `s` itself when `s` has
at most 50 characters, else the first 50 characters of `s` followed by the
ellipsis marker. -/
theorem addHistory_title_preview (histories : Store) (feature : String)
    (messages : List Message) (now : Nat) (fu : Message) (rest : List Message)
    (h : messages.filter (fun m => decide (m.role = Role.user)) = fu :: rest) :
    ((addHistory histories feature messages now) feature).head?.map
        (fun r => (r.title, r.preview))
      = some (jsSubstring0 fu.content 30,
          if jsLength fu.content ≤ 50 then fu.content
          else jsSubstring0 fu.content 50 ++ "...") := by
  rw [addHistory_of_filter_cons histories feature messages now fu rest h]
  show ((if feature = feature then
      List.take 20 (mkHistory feature messages now fu.content :: histories feature)
    else histories feature).head?.map (fun r => (r.title, r.preview)))
    = some (jsSubstring0 fu.content 30,
        if jsLength fu.content ≤ 50 then fu.content
        else jsSubstring0 fu.content 50 ++ "...")
  rw [if_pos rfl]
  have h20 : (20 : Nat) = 19 + 1 := rfl
  rw [h20, List.take_succ_cons]
  simp only [List.head?_cons, Option.map_some]
  refine congrArg some ?_
  refine Prod.ext rfl ?_
  show jsSubstring0 fu.content 50
      ++ (if jsLength fu.content > 50 then "..." else "")
    = if jsLength fu.content ≤ 50 then fu.content
      else jsSubstring0 fu.content 50 ++ "..."
  by_cases hl : jsLength fu.content ≤ 50
  · rw [if_pos hl, if_neg (not_lt.mpr hl), string_append_nil,
      jsSubstring0_of_le fu.content 50 hl]
  · rw [if_neg hl, if_pos (lt_of_not_le hl)]

/-- Witness for C6 at a 35-character first USER turn: the title is the
first 30 characters with no ellipsis, the preview is the whole content. -/
theorem addHistory_title_preview_witness :
    ([({ role := Role.user, content := "abcdefghijklmnopqrstuvwxyz123456789" } : Message)].filter
        (fun m => decide (m.role = Role.user))
      = [{ role := Role.user, content := "abcdefghijklmnopqrstuvwxyz123456789" }]) ∧
      ((addHistory emptyStore "chat"
            [{ role := Role.user, content := "abcdefghijklmnopqrstuvwxyz123456789" }] 7)
          "chat").head?.map (fun r => (r.title, r.preview))
        = some ("abcdefghijklmnopqrstuvwxyz1234",
            "abcdefghijklmnopqrstuvwxyz123456789") :=
  ⟨by decide, by
    have happ := addHistory_title_preview emptyStore "chat"
      [{ role := Role.user, content := "abcdefghijklmnopqrstuvwxyz123456789" }] 7
      { role := Role.user, content := "abcdefghijklmnopqrstuvwxyz123456789" } []
      (by decide)
    exact happ.trans (by decide)⟩

end BAssist
